import Mathlib

/-!
A shallow embedding of `src/vladify.py` (the schema/validation engine):
the value model, the schema node hierarchy (`DictSchema`, `ListSchema`,
`IntSchema`, `StrSchema`), the two-pass document protocol (index building,
then validation), the path-scoped `Checker`, and the two reporter
strategies (`FailFastReporter`, `AggregateReporter`).

Python-level behaviour that the engine relies on is modelled explicitly:
`int()` coercion (distinguishing `ValueError` from `TypeError`), Python 2
cross-type ordering (numbers sort below every non-numeric value), `in` /
`[]` on the various value kinds, and truthiness.  Uncaught Python
exceptions (`assert` failures, `KeyError`, `TypeError`) are modelled as a
`crash`, distinct from validation failures routed through a reporter.
-/

namespace Vladify

/-- `MAX_INT` from vladify.py line 6: the 32-bit signed maximum. -/
def MAX_INT : Int := 2 ^ 31 - 1

/-- `MIN_INT` from vladify.py line 7. -/
def MIN_INT : Int := -MAX_INT - 1

/-- The kind of key handed to `extend_path` / `Checker.validate`:
a Python `int` (sequence position) or a `str` (mapping field name). -/
inductive PathKey where
  | intKey (i : Int)
  | strKey (s : String)
deriving Repr, DecidableEq

/-- `extend_path(key, previous)` from vladify.py lines 10-15: an integer
key renders as `previous + "[" + key + "]"`; a string key appends with a
dot separator when `previous` is non-empty, else stands alone. -/
def extend_path (key : PathKey) (previous : String) : String :=
  match key with
  | .intKey i => previous ++ "[" ++ toString i ++ "]"
  | .strKey k => if previous.length > 0 then previous ++ "." ++ k else k

mutual
/-- A JSON-like data value: the trees produced by the external parser
(mappings with string keys, sequences, strings, integers). -/
inductive Value where
  | vInt (n : Int)
  | vStr (s : String)
  | vList (items : VItems)
  | vMap (fields : VFields)
deriving Repr
/-- Sequence of values (the elements of a `vList`). -/
inductive VItems where
  | nil
  | cons (v : Value) (rest : VItems)
deriving Repr
/-- Fields of a mapping value, in insertion order. -/
inductive VFields where
  | nil
  | cons (k : String) (v : Value) (rest : VFields)
deriving Repr
end

/-- Build a `VItems` from a Lean list (notation convenience only). -/
def VItems.ofList : List Value → VItems
  | [] => .nil
  | v :: rest => .cons v (VItems.ofList rest)

/-- Build a `VFields` from a Lean association list. -/
def VFields.ofList : List (String × Value) → VFields
  | [] => .nil
  | (k, v) :: rest => .cons k v (VFields.ofList rest)

/-- The elements of a `VItems` as a Lean list. -/
def VItems.toList : VItems → List Value
  | .nil => []
  | .cons v rest => v :: rest.toList

/-- A sequence value from a Lean list. -/
def Value.list (l : List Value) : Value := .vList (VItems.ofList l)

/-- A mapping value from a Lean association list. -/
def Value.map (l : List (String × Value)) : Value := .vMap (VFields.ofList l)

mutual
/-- Python `==` on data values (used for dict-key membership). -/
def valueBeq : Value → Value → Bool
  | .vInt a, .vInt b => a == b
  | .vStr a, .vStr b => a == b
  | .vList a, .vList b => vitemsBeq a b
  | .vMap a, .vMap b => vfieldsBeq a b
  | _, _ => false
/-- Elementwise `==` on sequences. -/
def vitemsBeq : VItems → VItems → Bool
  | .nil, .nil => true
  | .cons x xs, .cons y ys => valueBeq x y && vitemsBeq xs ys
  | _, _ => false
/-- Fieldwise `==` on mappings (order-sensitive, adequate for the
equality checks the engine performs on scalar keys). -/
def vfieldsBeq : VFields → VFields → Bool
  | .nil, .nil => true
  | .cons k1 v1 xs, .cons k2 v2 ys => k1 == k2 && valueBeq v1 v2 && vfieldsBeq xs ys
  | _, _ => false
end

/-- Python truthiness of a data value (`0`, `""`, `[]`, `{}` are falsy). -/
def pyTruthy : Value → Bool
  | .vInt n => n != 0
  | .vStr s => s.length > 0
  | .vList .nil => false
  | .vList (.cons _ _) => true
  | .vMap .nil => false
  | .vMap (.cons _ _ _) => true

/-- The rendering of `type(data)` in Python 2 error messages. -/
def pyTypeStr : Value → String
  | .vInt _ => "<type 'int'>"
  | .vStr _ => "<type 'str'>"
  | .vList _ => "<type 'list'>"
  | .vMap _ => "<type 'dict'>"

/-- `isinstance(data, int)`. -/
def isIntValue : Value → Bool
  | .vInt _ => true
  | _ => false

/-- `isinstance(data, str) or isinstance(data, unicode)`. -/
def isStrValue : Value → Bool
  | .vStr _ => true
  | _ => false

mutual
/-- Python `repr` of a value (used by `str` on containers). -/
def pyRepr : Value → String
  | .vInt n => toString n
  | .vStr s => "'" ++ s ++ "'"
  | .vList items => "[" ++ String.intercalate (", ") (pyReprItems items) ++ "]"
  | .vMap fields => "\x7b" ++ String.intercalate (", ") (pyReprFields fields) ++ "\x7d"
/-- `repr` of each sequence element. -/
def pyReprItems : VItems → List String
  | .nil => []
  | .cons v rest => pyRepr v :: pyReprItems rest
/-- `repr` of each mapping entry. -/
def pyReprFields : VFields → List String
  | .nil => []
  | .cons k v rest => ("'" ++ k ++ "': " ++ pyRepr v) :: pyReprFields rest
end

/-- Python `str()` / `"%s"` rendering of a value. -/
def pyStr : Value → String
  | .vStr s => s
  | v => pyRepr v

/-- Strip leading and trailing whitespace (Python `int()` does this). -/
def pyStripWs (l : List Char) : List Char :=
  ((l.dropWhile Char.isWhitespace).reverse.dropWhile Char.isWhitespace).reverse

/-- Decimal value of a digit string. -/
def digitsToNat (l : List Char) : Nat :=
  l.foldl (fun acc c => acc * 10 + (c.toNat - ('0').toNat)) 0

/-- Python 2 `int(s)` on a string: optional surrounding whitespace, one
optional sign, then one or more decimal digits; anything else raises
`ValueError` (modelled as `none`). -/
def pyParseInt (s : String) : Option Int :=
  match pyStripWs s.toList with
  | [] => none
  | c :: rest =>
    let signed : Bool := c = '-' || c = '+'
    let ds : List Char := if signed then rest else c :: rest
    if ds.length > 0 && ds.all Char.isDigit then
      some ((if c = '-' then (-1 : Int) else 1) * (digitsToNat ds : Int))
    else none

/-- Outcome of Python `int(data)` on a data value. -/
inductive IntCast where
  | okInt (n : Int)
  | castValueError
  | castTypeError (tname : String)
deriving Repr, DecidableEq

/-- `int(data)`: integers pass through, strings are parsed (`ValueError`
on bad syntax), lists and dicts raise `TypeError`. -/
def pyIntCast : Value → IntCast
  | .vInt n => .okInt n
  | .vStr s =>
    match pyParseInt s with
    | some n => .okInt n
    | none => .castValueError
  | .vList _ => .castTypeError ("list")
  | .vMap _ => .castTypeError ("dict")

/-- Python 2 `data >= m` for integer `m`: numeric when `data` is a
number; otherwise every non-numeric value compares greater than any
number, so the result is true. -/
def pyGeInt (v : Value) (m : Int) : Bool :=
  match v with
  | .vInt n => m ≤ n
  | _ => true

/-- Python 2 `data <= m` for integer `m`: numeric when `data` is a
number; otherwise false (non-numbers are greater than all numbers). -/
def pyLeInt (v : Value) (m : Int) : Bool :=
  match v with
  | .vInt n => n ≤ m
  | _ => false

/-- Python iteration `for i, item in enumerate(data)`: lists yield their
elements, strings their characters, dicts their keys; integers raise
`TypeError`. -/
def pyIter : Value → Except String (List Value)
  | .vList items => .ok items.toList
  | .vStr s => .ok (s.toList.map (fun c => Value.vStr (String.singleton c)))
  | .vMap fields => .ok (pyIterKeys fields)
  | .vInt _ => .error ("TypeError: 'int' object is not iterable")
where
  /-- Keys of a mapping, as string values. -/
  pyIterKeys : VFields → List Value
    | .nil => []
    | .cons k _ rest => Value.vStr k :: pyIterKeys rest

/-- Does `pat` occur as a prible of `hay` starting at its head? -/
def leadsList (pat hay : List Char) : Bool :=
  match pat, hay with
  | [], _ => true
  | _ :: _, [] => false
  | p :: ps, h :: hs => p == h && leadsList ps hs

/-- Substring occurrence test over character lists. -/
def subOccurs (pat : List Char) : List Char → Bool
  | [] => pat.isEmpty
  | h :: hs => leadsList pat (h :: hs) || subOccurs pat hs

/-- Membership of a value in a sequence (element equality by `==`). -/
def vitemsHas (items : VItems) (x : Value) : Bool :=
  match items with
  | .nil => false
  | .cons v rest => valueBeq v x || vitemsHas rest x

/-- Does a mapping value carry field `k`? -/
def vfieldsHas (fields : VFields) (k : String) : Bool :=
  match fields with
  | .nil => false
  | .cons k1 _ rest => k1 == k || vfieldsHas rest k

/-- Lookup of field `k` in a mapping value. -/
def vfieldsGet (fields : VFields) (k : String) : Option Value :=
  match fields with
  | .nil => none
  | .cons k1 v rest => if k1 == k then some v else vfieldsGet rest k

/-- Python `k in data` for a string `k`: key membership for dicts,
element membership for lists, substring test for strings, `TypeError`
for integers. -/
def pyContainsStr (k : String) : Value → Except String Bool
  | .vMap fields => .ok (vfieldsHas fields k)
  | .vList items => .ok (vitemsHas items (.vStr k))
  | .vStr s => .ok (subOccurs k.toList s.toList)
  | .vInt _ => .error ("TypeError: argument of type 'int' is not iterable")

/-- Python `data[k]` for a string `k`: dict lookup (`KeyError` when the
field is absent); every other value kind raises `TypeError`. -/
def pyGetItem (data : Value) (k : String) : Except String Value :=
  match data with
  | .vMap fields =>
    match vfieldsGet fields k with
    | some v => .ok v
    | none => .error ("KeyError: '" ++ k ++ "'")
  | .vList _ => .error ("TypeError: list indices must be integers, not str")
  | .vStr _ => .error ("TypeError: string indices must be integers, not str")
  | .vInt _ => .error ("TypeError: 'int' object has no attribute '__getitem__'")

mutual
/-- The schema node hierarchy of vladify.py: `DictSchema` (mapping of
field name to child schema), `ListSchema` (uniform item schema),
`IntSchema` (bounds plus `coerce`), `StrSchema` (optional `ref` path).
The `isKey` flag on the leaves models the `is_key` attribute, which
`make_value_schema` sets only on value (leaf) schemas; composite nodes
keep the base-class default `False`. -/
inductive Schema where
  | dictS (fields : SFields)
  | listS (item : Schema)
  | intS (min max : Int) (coerce : Bool) (isKey : Bool)
  | strS (ref : Option String) (isKey : Bool)
deriving Repr
/-- The `items` of a `DictSchema`, in schema-declared order. -/
inductive SFields where
  | fnil
  | fcons (name : String) (s : Schema) (rest : SFields)
deriving Repr
end

/-- Build `SFields` from a Lean association list. -/
def SFields.ofList : List (String × Schema) → SFields
  | [] => .fnil
  | (k, s) :: rest => .fcons k s (SFields.ofList rest)

/-- The `is_key` attribute of a schema node (vladify.py line 40 default;
set by `make_value_schema` on leaves only). -/
def Schema.is_key : Schema → Bool
  | .intS _ _ _ k => k
  | .strS _ k => k
  | .dictS _ => false
  | .listS _ => false

/-- The `self.key` attribute computed in `DictSchema.__init__`
(vladify.py lines 56-58): the name of the first child marked `is_key`,
or none.  (The constructor asserts there is at most one such child.) -/
def SFields.keyField : SFields → Option String
  | .fnil => none
  | .fcons k s rest => if s.is_key then some k else rest.keyField

/-- A per-path key index: Python dict from key value to item position,
modelled as an association list in insertion order. -/
abbrev Index := List (Value × Nat)

/-- The `indices` registry of a `Doc`: path string to index. -/
abbrev Indices := List (String × Index)

/-- Association-list lookup with string keys (Python dict read). -/
def lookupStr {α : Type} : List (String × α) → String → Option α
  | [], _ => none
  | (k, v) :: rest, key => if k = key then some v else lookupStr rest key

/-- Python `key in index` for an index dict. -/
def indexHasKey (index : Index) (key : Value) : Bool :=
  match index with
  | [] => false
  | (k, _) :: rest => valueBeq k key || indexHasKey rest key

/-- `get_key` (vladify.py lines 42-43, 60-64, 132-135): the base schema
returns none; a `StrSchema` marked `is_key` returns the raw value;
`IntSchema` and `ListSchema` inherit the base behaviour; a `DictSchema`
with a key-marked child returns `data[self.key]` (which raises when the
field is absent or the value is not a mapping). -/
def Schema.get_key : Schema → Value → Except String (Option Value)
  | .strS _ true, data => .ok (some data)
  | .strS _ false, _ => .ok none
  | .intS _ _ _ _, _ => .ok none
  | .listS _, _ => .ok none
  | .dictS fields, data =>
    match fields.keyField with
    | none => .ok none
    | some k => (pyGetItem data k).map some

/-- `Doc.register_index` (vladify.py lines 25-27): `assert path not in
self.indices`, then `self.indices[path] = index`. -/
def register_index (idxs : Indices) (index : Index) (path : String) : Except String Indices :=
  match lookupStr idxs path with
  | some _ => .error ("AssertionError: index already registered at path '" ++ path ++ "'")
  | none => .ok (idxs ++ [(path, index)])

/-- The argument `key or i` passed to `extend_path` in
`ListSchema.build_index` (vladify.py line 94): a falsy key falls back to
the integer position; a truthy non-scalar key makes the string
concatenation inside `extend_path` raise `TypeError`. -/
def pyKeyOrIndex (key : Value) (i : Nat) : Except String PathKey :=
  if pyTruthy key then
    match key with
    | .vInt n => .ok (.intKey n)
    | .vStr s => .ok (.strKey s)
    | .vList _ => .error ("TypeError: cannot concatenate 'str' and 'list' objects")
    | .vMap _ => .error ("TypeError: cannot concatenate 'str' and 'dict' objects")
  else .ok (.intKey (i : Int))

/-- The loop body of `ListSchema.build_index` (vladify.py lines 86-95):
walk the items with their positions, extract each item's key, reject
duplicates (`assert key not in index`), record `key -> position`, and
recurse into the item.  Returns the locally built index together with
the updated registry.  `bi` is the item schema's `build_index`. -/
def seq_build_index (isch : Schema) (bi : Value → String → Indices → Except String Indices) :
    List Value → String → Nat → Index → Indices → Except String (Index × Indices)
  | [], _, _, index, idxs => .ok (index, idxs)
  | item :: rest, path, i, index, idxs =>
    match isch.get_key item with
    | .error e => .error e
    | .ok none => seq_build_index isch bi rest path (i + 1) index idxs
    | .ok (some key) =>
      if indexHasKey index key then
        .error ("Duplicate key (" ++ pyStr key ++ ") at path '" ++ path ++ "'")
      else
        match pyKeyOrIndex key i with
        | .error e => .error e
        | .ok pk =>
          match bi item (extend_path pk path) idxs with
          | .error e => .error e
          | .ok idxs1 => seq_build_index isch bi rest path (i + 1) (index ++ [(key, i)]) idxs1

mutual
/-- `build_index` (vladify.py lines 45-46, 66-72, 85-97): leaves are
no-ops; `DictSchema` recurses into each field present in the data;
`ListSchema` builds a local key index over its items and, when any key
was collected, registers it on the document at the current path. -/
def Schema.build_index : Schema → Value → String → Indices → Except String Indices
  | .intS _ _ _ _, _, _, idxs => .ok idxs
  | .strS _ _, _, _, idxs => .ok idxs
  | .dictS fields, data, path, idxs => SFields.build_index_all fields data path idxs
  | .listS isch, data, path, idxs =>
    match pyIter data with
    | .error e => .error e
    | .ok items =>
      match seq_build_index isch (Schema.build_index isch) items path 0 [] idxs with
      | .error e => .error e
      | .ok (index, idxs1) =>
        if index.length > 0 then register_index idxs1 index path else .ok idxs1
/-- The field loop of `DictSchema.build_index` (vladify.py lines 66-72):
`if k in data: schema.build_index(data[k], extend_path(k, path), doc)`. -/
def SFields.build_index_all : SFields → Value → String → Indices → Except String Indices
  | .fnil, _, _, idxs => .ok idxs
  | .fcons k s rest, data, path, idxs =>
    match pyContainsStr k data with
    | .error e => .error e
    | .ok false => SFields.build_index_all rest data path idxs
    | .ok true =>
      match pyGetItem data k with
      | .error e => .error e
      | .ok v =>
        match Schema.build_index s v (extend_path (.strKey k) path) idxs with
        | .error e => .error e
        | .ok idxs1 => SFields.build_index_all rest data path idxs1
end

/-- A `Doc` (vladify.py lines 18-23) after construction: the raw data,
the schema, and the index registry the constructor populated. -/
structure Doc where
  raw_data : Value
  schema : Schema
  indices : Indices

/-- The `Doc` constructor: runs the full index-building pass rooted at
the empty path; an `assert` failure or uncaught exception during the
pass aborts construction. -/
def Doc.init (data : Value) (schema : Schema) : Except String Doc :=
  match schema.build_index data ("") [] with
  | .error e => .error e
  | .ok idxs => .ok ⟨data, schema, idxs⟩

/-- The reporter's mutable state: `num_checks`, `num_fields` counters
(vladify.py lines 204-213) and, for the aggregate strategy, the
collected error list. -/
structure VState where
  num_checks : Nat
  num_fields : Nat
  errors : List String
deriving Repr, DecidableEq

/-- How a validation walk can stop early: `crash` is an uncaught Python
exception (never routed through a reporter); `reported` is the
`AssertionError` a `FailFastReporter.raise_error` raises. -/
inductive Fail where
  | crash (msg : String)
  | reported (msg : String)
deriving Repr, DecidableEq

/-- The reporter strategy in effect for a validation run. -/
inductive Mode where
  | failFast
  | aggregate
deriving Repr, DecidableEq

/-- `Reporter.report_check` (vladify.py lines 209-210). -/
def report_check (st : VState) : VState :=
  { st with num_checks := st.num_checks + 1 }

/-- `Reporter.report_field` (vladify.py lines 212-213); called by every
`Checker.__init__`. -/
def report_field (st : VState) : VState :=
  { st with num_fields := st.num_fields + 1 }

/-- `raise_error` (vladify.py lines 217-218, 229-230): fail-fast raises
an `AssertionError` carrying the message; aggregate appends the message
and continues. -/
def raise_error (mode : Mode) (msg : String) (st : VState) : VState × Option Fail :=
  match mode with
  | .failFast => (st, some (.reported msg))
  | .aggregate => ({ st with errors := st.errors ++ [msg] }, none)

/-- `Checker.fail` (vladify.py lines 192-193): prefix the message with
the checker's path and raise through the reporter. -/
def checker_fail (mode : Mode) (path msg : String) (st : VState) : VState × Option Fail :=
  raise_error mode ("Error at path '" ++ path ++ "': " ++ msg) st

/-- `Checker.assertTrue` (vladify.py lines 198-201): always count the
check first, then on a false condition fail through the reporter. -/
def assertTrue (mode : Mode) (path : String) (v : Bool) (msg : String) (st : VState) :
    VState × Option Fail :=
  let st1 := report_check st
  if v then (st1, none) else checker_fail mode path msg st1

/-- Sequencing of checker steps: a raised failure (or crash) unwinds the
rest of the walk; otherwise continue with the updated state. -/
def vseq (r : VState × Option Fail) (f : VState → VState × Option Fail) : VState × Option Fail :=
  match r with
  | (st, some e) => (st, some e)
  | (st, none) => f st

/-- `Doc.check_ref` (vladify.py lines 29-32): look up the index at
`ref_path` (`KeyError` — a crash — when that path was never registered)
and assert the key is present in it. -/
def Doc.check_ref (doc : Doc) (ref_path : String) (key : Value) (mode : Mode) (path : String)
    (st : VState) : VState × Option Fail :=
  match lookupStr doc.indices ref_path with
  | none => (st, some (.crash ("KeyError: '" ++ ref_path ++ "'")))
  | some index =>
    assertTrue mode path (indexHasKey index key)
      ("Key reference '" ++ pyStr key ++ "' not found at index path '" ++ ref_path ++ "'") st

/-- The three checks of `IntSchema.validate` after any coercion
(vladify.py lines 119-124): integer type, lower bound, upper bound, in
that order, each as an independent `assertTrue`. -/
def int_checks (mn mx : Int) (data : Value) (mode : Mode) (path : String) (st : VState) :
    VState × Option Fail :=
  vseq (assertTrue mode path (isIntValue data)
      ("Incorrect type, expected int, found '" ++ pyTypeStr data ++ "'") st) (fun st1 =>
  vseq (assertTrue mode path (pyGeInt data mn)
      ("Int value (" ++ pyStr data ++ ") less than minimum (" ++ toString mn ++ ")") st1) (fun st2 =>
  assertTrue mode path (pyLeInt data mx)
    ("Int value (" ++ pyStr data ++ ") greater than maximum (" ++ toString mx ++ ")") st2))

/-- `IntSchema.validate` (vladify.py lines 111-124): when `coerce` is
set, run `int(data)` first — a `ValueError` is reported as a single
checker failure and validation of the value stops; a `TypeError` is not
caught and crashes; on success the coerced integer replaces the value
for the three checks. -/
def int_validate (mn mx : Int) (coerce : Bool) (mode : Mode) (data : Value) (path : String)
    (st : VState) : VState × Option Fail :=
  if coerce then
    match pyIntCast data with
    | .okInt n => int_checks mn mx (.vInt n) mode path st
    | .castValueError =>
      checker_fail mode path ("Could not coerce value ('" ++ pyStr data ++ "') to int") st
    | .castTypeError t =>
      (st, some (.crash ("TypeError: int() argument must be a string or a number, not '" ++ t ++ "'")))
  else int_checks mn mx data mode path st

/-- Truthiness of the `ref` attribute (`if self.ref:`): configured and
non-empty. -/
def refTruthy : Option String → Bool
  | none => false
  | some r => r.length > 0

/-- `StrSchema.validate` (vladify.py lines 137-142): assert the value is
string-typed, then, when a `ref` path is configured, check the value
against the document index at that path.  There is no early return: the
reference check is reached whenever the type assertion did not unwind
the walk. -/
def str_validate (ref : Option String) (mode : Mode) (data : Value) (doc : Doc) (path : String)
    (st : VState) : VState × Option Fail :=
  vseq (assertTrue mode path (isStrValue data)
      ("Incorrect type, expected str or unicode, found '" ++ pyTypeStr data ++ "'") st) (fun st1 =>
    match ref with
    | some r => if r.length > 0 then doc.check_ref r data mode path st1 else (st1, none)
    | none => (st1, none))

/-- `Checker.validate` (vladify.py lines 187-190): construct a fresh
checker at the extended path (which notifies the reporter of one more
field) and invoke the child schema's `validate` through it.  `valf` is
the child schema's validator. -/
def checker_validate (valf : Mode → Value → Doc → String → VState → VState × Option Fail)
    (mode : Mode) (data : Value) (key : PathKey) (doc : Doc) (path : String) (st : VState) :
    VState × Option Fail :=
  valf mode data doc (extend_path key path) (report_field st)

/-- The loop of `ListSchema.validate` (vladify.py lines 99-101): visit
each item at its position through a fresh checker. -/
def seq_validate (valf : Mode → Value → Doc → String → VState → VState × Option Fail)
    (mode : Mode) : List Value → Doc → String → Nat → VState → VState × Option Fail
  | [], _, _, _, st => (st, none)
  | v :: rest, doc, path, i, st =>
    vseq (checker_validate valf mode v (.intKey (i : Int)) doc path st) (fun st1 =>
      seq_validate valf mode rest doc path (i + 1) st1)

mutual
/-- `validate` on schema nodes (vladify.py lines 48-49, 74-77, 99-101,
111-124, 137-142): leaves run their checks; `DictSchema` visits each
field present in the data; `ListSchema` visits each item in order. -/
def Schema.validate : Schema → Mode → Value → Doc → String → VState → VState × Option Fail
  | .intS mn mx c _, mode, data, _, path, st => int_validate mn mx c mode data path st
  | .strS ref _, mode, data, doc, path, st => str_validate ref mode data doc path st
  | .dictS fields, mode, data, doc, path, st => SFields.validate_all fields mode data doc path st
  | .listS isch, mode, data, doc, path, st =>
    match pyIter data with
    | .error e => (st, some (.crash e))
    | .ok items => seq_validate (Schema.validate isch) mode items doc path 0 st
/-- The field loop of `DictSchema.validate` (vladify.py lines 74-77):
`if k in data: test.validate(data[k], schema, k, doc)`. -/
def SFields.validate_all : SFields → Mode → Value → Doc → String → VState → VState × Option Fail
  | .fnil, _, _, _, _, st => (st, none)
  | .fcons k s rest, mode, data, doc, path, st =>
    match pyContainsStr k data with
    | .error e => (st, some (.crash e))
    | .ok false => SFields.validate_all rest mode data doc path st
    | .ok true =>
      match pyGetItem data k with
      | .error e => (st, some (.crash e))
      | .ok v =>
        vseq (checker_validate (Schema.validate s) mode v (.strKey k) doc path st) (fun st1 =>
          SFields.validate_all rest mode data doc path st1)
end

/-- The pristine reporter state at the start of a run. -/
def VState.init : VState := ⟨0, 0, []⟩

/-- `Doc.validate` driven from `Reporter.validate` (vladify.py lines
34-35, 220-221, 232-233): construct the root checker at the empty path
(counting one field) and validate the raw data against the schema. -/
def doc_validate (mode : Mode) (doc : Doc) : VState × Option Fail :=
  Schema.validate doc.schema mode doc.raw_data doc ("") (report_field VState.init)

/-- `FailFastReporter.validate` (vladify.py lines 220-221): one pass;
the first raised failure unwinds and surfaces alone. -/
def failfast_validate (doc : Doc) : VState × Option Fail :=
  doc_validate .failFast doc

/-- `AggregateReporter.validate` (vladify.py lines 232-238): one full
pass; afterwards, when any errors were collected, the run fails with a
summary counting them (the collected messages are all surfaced). -/
def aggregate_validate (doc : Doc) : VState × Option Fail :=
  match doc_validate .aggregate doc with
  | (st, some e) => (st, some e)
  | (st, none) =>
    if st.errors.length > 0 then
      (st, some (.reported ("Validation failed with " ++ toString st.errors.length ++ " errors!")))
    else (st, none)

/-! Helper lemmas shared by several developments below. -/

/-- Round-trip between Lean lists and the sequence-value representation. -/
theorem VItems.toList_ofList (l : List Value) : (VItems.ofList l).toList = l := by
  induction l with
  | nil => rfl
  | cons v rest ih => simp [VItems.ofList, VItems.toList, ih]

/-- String concatenation is associative (used to normalise the message
strings the checker builds). -/
theorem string_append_assoc (a b c : String) : a ++ b ++ c = a ++ (b ++ c) := by
  cases a with
  | mk la =>
    cases b with
    | mk lb =>
      cases c with
      | mk lc => exact congrArg String.mk (List.append_assoc la lb lc)

/-- A string of positive length is not the empty string, and conversely. -/
theorem string_length_pos_iff (s : String) : 0 < s.length ↔ s ≠ "" := by
  constructor
  · intro h he
    subst he
    simp at h
  · intro h
    rcases Nat.eq_zero_or_pos s.length with h0 | hp
    · exact absurd (by
        cases s with
        | mk data =>
          cases data with
          | nil => rfl
          | cons c cs => simp [String.length] at h0) h
    · exact hp

/-- C7: `extend_path` is pure and renders integer keys as
`previous ++ "[" ++ i ++ "]"`, string keys as `previous ++ "." ++ k`
when `previous` is non-empty and as the bare key otherwise; in
particular `extend_path("a") = "a"`, `extend_path("b","a") = "a.b"` and
`extend_path(0,"a") = "a[0]"`. -/
theorem C7_extend_path_spec :
    (∀ (i : Int) (p : String), extend_path (.intKey i) p = p ++ "[" ++ toString i ++ "]")
    ∧ (∀ (k p : String), p ≠ "" → extend_path (.strKey k) p = p ++ "." ++ k)
    ∧ (∀ (k : String), extend_path (.strKey k) ("") = k)
    ∧ extend_path (.strKey ("a")) ("") = "a"
    ∧ extend_path (.strKey ("b")) ("a") = "a.b"
    ∧ extend_path (.intKey 0) ("a") = "a[0]" := by
  refine ⟨fun i p => rfl, fun k p hp => ?_, fun k => rfl, rfl, rfl, rfl⟩
  simp [extend_path, (string_length_pos_iff p).mpr hp]

/-- Witness for C7 at concrete inputs, discharging the non-emptiness
hypothesis at `p = "a"`. -/
theorem C7_extend_path_spec_witness :
    ("a" : String) ≠ "" ∧ extend_path (.strKey ("b")) ("a") = "a.b" :=
  ⟨by decide, C7_extend_path_spec.2.1 ("b") ("a") (by decide)⟩

/-- C1 counterexample: a composite `DictSchema` with a key-marked string
child DOES directly report a key for a mapping value — `get_key` returns
the value of the key-marked field, not none (vladify.py lines 60-64
return `data[self.key]`). -/
theorem C1_counterexample :
    Schema.get_key (.dictS (SFields.ofList [(("name"), .strS none true)]))
        (Value.map [(("name"), .vStr ("a"))]) = .ok (some (.vStr ("a")))
    ∧ Schema.get_key (.dictS (SFields.ofList [(("name"), .strS none true)]))
        (Value.map [(("name"), .vStr ("a"))]) ≠ .ok none := by
  refine ⟨rfl, fun h => ?_⟩
  rw [show Schema.get_key (.dictS (SFields.ofList [(("name"), .strS none true)]))
        (Value.map [(("name"), .vStr ("a"))]) = .ok (some (.vStr ("a"))) from rfl] at h
  simp at h

/-- C1 (amended): `get_key` returns none for unmarked string leaves, for
int leaves (key-marked or not), for sequence schemas, and for mapping
schemas without a key-marked child; a key-marked string leaf returns the
raw value; and a mapping schema with a key-marked child reports the
value of that child field for a mapping value that carries it. -/
theorem C1_get_key_characterization :
    (∀ (r : Option String) (v : Value), Schema.get_key (.strS r true) v = .ok (some v))
    ∧ (∀ (r : Option String) (v : Value), Schema.get_key (.strS r false) v = .ok none)
    ∧ (∀ (mn mx : Int) (c k : Bool) (v : Value), Schema.get_key (.intS mn mx c k) v = .ok none)
    ∧ (∀ (isch : Schema) (v : Value), Schema.get_key (.listS isch) v = .ok none)
    ∧ (∀ (fields : SFields) (v : Value), fields.keyField = none →
        Schema.get_key (.dictS fields) v = .ok none)
    ∧ (∀ (fields : SFields) (k : String) (data w : Value), fields.keyField = some k →
        pyGetItem data k = .ok w → Schema.get_key (.dictS fields) data = .ok (some w)) := by
  refine ⟨fun r v => rfl, fun r v => rfl, fun mn mx c k v => rfl, fun isch v => rfl,
    fun fields v hk => ?_, fun fields k data w hk hg => ?_⟩
  · simp [Schema.get_key, hk]
  · simp [Schema.get_key, hk, hg, Except.map]

/-- Witness for C1 (amended) at a concrete keyed mapping schema. -/
theorem C1_get_key_characterization_witness :
    (SFields.ofList [(("name"), .strS none true)]).keyField = some ("name")
    ∧ pyGetItem (Value.map [(("name"), .vStr ("a"))]) ("name") = .ok (.vStr ("a"))
    ∧ Schema.get_key (.dictS (SFields.ofList [(("name"), .strS none true)]))
        (Value.map [(("name"), .vStr ("a"))]) = .ok (some (.vStr ("a"))) :=
  ⟨rfl, rfl,
    C1_get_key_characterization.2.2.2.2.2 (SFields.ofList [(("name"), .strS none true)])
      ("name") (Value.map [(("name"), .vStr ("a"))]) (.vStr ("a")) rfl rfl⟩

/-- C9 counterexample: a key-marked int leaf schema does NOT return the
raw scalar from `get_key` — `IntSchema` never overrides the base
`Schema.get_key` (vladify.py lines 104-124 define no `get_key`), so it
returns none even with `is_key` set. -/
theorem C9_counterexample :
    Schema.get_key (.intS 0 10 false true) (.vInt 5) = .ok none
    ∧ Schema.get_key (.intS 0 10 false true) (.vInt 5) ≠ .ok (some (.vInt 5)) := by
  refine ⟨rfl, fun h => ?_⟩
  rw [show Schema.get_key (.intS 0 10 false true) (.vInt 5) = .ok none from rfl] at h
  simp at h

/-- A sequence of key-marked int leaves collects no keys: the item loop
of `build_index` leaves the local index empty, so nothing is registered
and the registry is returned unchanged. -/
theorem seq_build_index_int_leaf (mn mx : Int) (c kf : Bool)
    (bi : Value → String → Indices → Except String Indices) (items : List Value) (path : String)
    (i : Nat) (index : Index) (idxs : Indices) :
    seq_build_index (.intS mn mx c kf) bi items path i index idxs = .ok (index, idxs) := by
  induction items generalizing i with
  | nil => rfl
  | cons v rest ih => simp [seq_build_index, Schema.get_key, ih]

/-- C9 (amended): both leaf types accept the key flag, but only a
key-marked string leaf returns the raw scalar from `get_key`; a
key-marked int leaf's `get_key` returns none, so a sequence of bare int
leaves registers no index during index building.  An int key field still
contributes keys when it is the key-marked child of a mapping schema,
whose `get_key` returns that field's value. -/
theorem C9_key_flag_semantics :
    (∀ (mn mx : Int) (c : Bool) (v : Value), Schema.get_key (.intS mn mx c true) v = .ok none)
    ∧ (∀ (r : Option String) (v : Value), Schema.get_key (.strS r true) v = .ok (some v))
    ∧ (∀ (mn mx : Int) (c : Bool) (items : List Value) (path : String) (idxs : Indices),
        Schema.build_index (.listS (.intS mn mx c true)) (Value.list items) path idxs = .ok idxs)
    ∧ (∀ (mn mx : Int) (c : Bool) (w : Value),
        Schema.get_key (.dictS (SFields.ofList [(("id"), .intS mn mx c true)]))
          (Value.map [(("id"), w)]) = .ok (some w)) := by
  refine ⟨fun mn mx c v => rfl, fun r v => rfl, fun mn mx c items path idxs => ?_,
    fun mn mx c w => ?_⟩
  · simp [Schema.build_index, Value.list, pyIter, VItems.toList_ofList,
      seq_build_index_int_leaf]
  · simp [Schema.get_key, SFields.keyField, SFields.ofList, Schema.is_key, Value.map,
      VFields.ofList, pyGetItem, vfieldsGet, Except.map]

/-- C2 counterexample: `StrSchema.validate` has no early return, so
under the Aggregate reporter the reference check is NOT skipped after a
type failure.  Validating the integer `1` against a string schema with
`ref = "types"` produces TWO reported failures (type failure and
key-reference failure — the index lookup did happen), and against a
document whose registry lacks the path it even crashes with `KeyError`
after the type failure. -/
theorem C2_counterexample :
    Schema.validate (.strS (some ("types")) false) .aggregate (.vInt 1)
        ⟨.vInt 0, .strS none false, [(("types"), [(.vStr ("a"), 0)])]⟩ ("x") VState.init =
      (⟨2, 0, ["Error at path 'x': Incorrect type, expected str or unicode, found '<type 'int'>'",
               "Error at path 'x': Key reference '1' not found at index path 'types'"]⟩, none)
    ∧ Schema.validate (.strS (some ("types")) false) .aggregate (.vInt 1)
        ⟨.vInt 0, .strS none false, []⟩ ("x") VState.init =
      (⟨1, 0, ["Error at path 'x': Incorrect type, expected str or unicode, found '<type 'int'>'"]⟩,
       some (.crash ("KeyError: 'types'"))) :=
  ⟨rfl, rfl⟩

/-- C2 (amended): the reference check is skipped after a type failure
only under the FailFast reporter, whose raised error unwinds the walk
before the lookup; under the Aggregate reporter validation continues
past the type failure and the reference check (an index lookup on the
non-string value) is still performed. -/
theorem C2_ref_check_not_skipped :
    (∀ (r : String) (isK : Bool) (doc : Doc) (v : Value) (path : String) (st : VState),
      isStrValue v = false →
      Schema.validate (.strS (some r) isK) .failFast v doc path st =
        (report_check st,
         some (.reported ("Error at path '" ++ path ++ "': " ++
           ("Incorrect type, expected str or unicode, found '" ++ pyTypeStr v ++ "'")))))
    ∧ (∀ (r : String) (isK : Bool) (doc : Doc) (v : Value) (path : String) (st : VState),
      isStrValue v = false → 0 < r.length →
      Schema.validate (.strS (some r) isK) .aggregate v doc path st =
        doc.check_ref r v .aggregate path
          ⟨st.num_checks + 1, st.num_fields,
           st.errors ++ ["Error at path '" ++ path ++ "': " ++
             ("Incorrect type, expected str or unicode, found '" ++ pyTypeStr v ++ "'")]⟩) := by
  constructor
  · intro r isK doc v path st hv
    simp [Schema.validate, str_validate, assertTrue, vseq, checker_fail, raise_error,
      report_check, hv, string_append_assoc]
  · intro r isK doc v path st hv hr
    simp [Schema.validate, str_validate, assertTrue, vseq, checker_fail, raise_error,
      report_check, hv, hr, string_append_assoc]

/-- Witness for C2 (amended) at the integer value `1` and ref path
`"types"`. -/
theorem C2_ref_check_not_skipped_witness :
    isStrValue (.vInt 1) = false ∧ 0 < ("types" : String).length
    ∧ Schema.validate (.strS (some ("types")) false) .failFast (.vInt 1)
        ⟨.vInt 0, .strS none false, [(("types"), [(.vStr ("a"), 0)])]⟩ ("x") VState.init =
        (report_check VState.init,
         some (.reported ("Error at path 'x': " ++
           ("Incorrect type, expected str or unicode, found '" ++ pyTypeStr (.vInt 1) ++ "'"))))
    ∧ Schema.validate (.strS (some ("types")) false) .aggregate (.vInt 1)
        ⟨.vInt 0, .strS none false, [(("types"), [(.vStr ("a"), 0)])]⟩ ("x") VState.init =
        Doc.check_ref ⟨.vInt 0, .strS none false, [(("types"), [(.vStr ("a"), 0)])]⟩ ("types")
          (.vInt 1) .aggregate ("x")
          ⟨VState.init.num_checks + 1, VState.init.num_fields,
           VState.init.errors ++ ["Error at path 'x': " ++
             ("Incorrect type, expected str or unicode, found '" ++ pyTypeStr (.vInt 1) ++ "'")]⟩ :=
  ⟨by decide, by decide,
    C2_ref_check_not_skipped.1 ("types") false
      ⟨.vInt 0, .strS none false, [(("types"), [(.vStr ("a"), 0)])]⟩ (.vInt 1) ("x")
      VState.init (by decide),
    C2_ref_check_not_skipped.2 ("types") false
      ⟨.vInt 0, .strS none false, [(("types"), [(.vStr ("a"), 0)])]⟩ (.vInt 1) ("x")
      VState.init (by decide) (by decide)⟩

/-- C3 counterexample: a sequence or mapping value also "cannot be
parsed as an integer", but there `int(data)` raises `TypeError`, which
the `except ValueError` of vladify.py lines 113-117 does not catch: the
result is an uncaught crash with NO reported failure, not a single
could-not-coerce message. -/
theorem C3_counterexample :
    Schema.validate (.intS MIN_INT MAX_INT true false) .aggregate (Value.list [])
        ⟨.vInt 0, .strS none false, []⟩ ("x") VState.init =
      (VState.init,
       some (.crash ("TypeError: int() argument must be a string or a number, not 'list'")))
    ∧ Schema.validate (.intS MIN_INT MAX_INT true false) .aggregate (Value.map [])
        ⟨.vInt 0, .strS none false, []⟩ ("x") VState.init =
      (VState.init,
       some (.crash ("TypeError: int() argument must be a string or a number, not 'dict'"))) :=
  ⟨rfl, rfl⟩

/-- C3 (amended): for every STRING value that cannot be parsed as an
integer, a coercing `IntSchema` reports exactly one could-not-coerce
failure through the checker and stops — the type and bounds checks are
skipped (the check counter does not move), and there is no crash; under
FailFast the same single message is raised.  (Sequence and mapping
values instead crash with an uncaught `TypeError`.) -/
theorem C3_coerce_failure_reported :
    (∀ (mn mx : Int) (k : Bool) (s : String) (doc : Doc) (path : String) (st : VState),
      pyParseInt s = none →
      Schema.validate (.intS mn mx true k) .aggregate (.vStr s) doc path st =
        ({ st with errors := st.errors ++
            ["Error at path '" ++ path ++ "': " ++
              ("Could not coerce value ('" ++ s ++ "') to int")] },
         none))
    ∧ (∀ (mn mx : Int) (k : Bool) (s : String) (doc : Doc) (path : String) (st : VState),
      pyParseInt s = none →
      Schema.validate (.intS mn mx true k) .failFast (.vStr s) doc path st =
        (st, some (.reported ("Error at path '" ++ path ++ "': " ++
          ("Could not coerce value ('" ++ s ++ "') to int"))))) := by
  constructor
  · intro mn mx k s doc path st hs
    simp [Schema.validate, int_validate, pyIntCast, hs, checker_fail, raise_error, pyStr,
      string_append_assoc]
  · intro mn mx k s doc path st hs
    simp [Schema.validate, int_validate, pyIntCast, hs, checker_fail, raise_error, pyStr,
      string_append_assoc]

/-- Witness for C3 (amended) at the unparsable string `"a1"`. -/
theorem C3_coerce_failure_reported_witness :
    pyParseInt ("a1") = none
    ∧ Schema.validate (.intS 0 10 true false) .aggregate (.vStr ("a1"))
        ⟨.vInt 0, .strS none false, []⟩ ("x") VState.init =
        ({ VState.init with errors := VState.init.errors ++
            ["Error at path 'x': Could not coerce value ('a1') to int"] }, none)
    ∧ Schema.validate (.intS 0 10 true false) .failFast (.vStr ("a1"))
        ⟨.vInt 0, .strS none false, []⟩ ("x") VState.init =
        (VState.init,
         some (.reported ("Error at path 'x': Could not coerce value ('a1') to int"))) :=
  ⟨rfl,
    C3_coerce_failure_reported.1 0 10 false ("a1") ⟨.vInt 0, .strS none false, []⟩ ("x")
      VState.init rfl,
    C3_coerce_failure_reported.2 0 10 false ("a1") ⟨.vInt 0, .strS none false, []⟩ ("x")
      VState.init rfl⟩

/-- The path-prefixed failure messages that the three int checks emit
for a value, in check order (type, then minimum, then maximum). -/
def int_fail_msgs (mn mx : Int) (v : Value) (path : String) : List String :=
  (if isIntValue v then [] else
    ["Error at path '" ++ path ++ "': " ++
      ("Incorrect type, expected int, found '" ++ pyTypeStr v ++ "'")])
  ++ (if pyGeInt v mn then [] else
    ["Error at path '" ++ path ++ "': " ++
      ("Int value (" ++ pyStr v ++ ") less than minimum (" ++ toString mn ++ ")")])
  ++ (if pyLeInt v mx then [] else
    ["Error at path '" ++ path ++ "': " ++
      ("Int value (" ++ pyStr v ++ ") greater than maximum (" ++ toString mx ++ ")")])

/-- Under the aggregate strategy the three int checks always run, each
counted, appending exactly the failing checks' messages in order. -/
theorem int_checks_aggregate (mn mx : Int) (v : Value) (path : String) (st : VState) :
    int_checks mn mx v .aggregate path st =
      (⟨st.num_checks + 3, st.num_fields, st.errors ++ int_fail_msgs mn mx v path⟩, none) := by
  cases hv : isIntValue v <;> cases hg : pyGeInt v mn <;> cases hl : pyLeInt v mx <;>
    simp [int_checks, assertTrue, vseq, checker_fail, raise_error, report_check,
      int_fail_msgs, hv, hg, hl, string_append_assoc]

/-- C4: when coercion did not fail (or `coerce` is off), `IntSchema`
attempts all three checks — type, lower bound, upper bound, in that
order — with no short-circuit after a type failure: under the Aggregate
reporter each failing check is reported independently and the check
counter always advances by exactly three. -/
theorem C4_int_validate_three_checks :
    (∀ (mn mx : Int) (k : Bool) (v : Value) (doc : Doc) (path : String) (st : VState),
      Schema.validate (.intS mn mx false k) .aggregate v doc path st =
        (⟨st.num_checks + 3, st.num_fields, st.errors ++ int_fail_msgs mn mx v path⟩, none))
    ∧ (∀ (mn mx : Int) (k : Bool) (v : Value) (n : Int) (doc : Doc) (path : String) (st : VState),
      pyIntCast v = .okInt n →
      Schema.validate (.intS mn mx true k) .aggregate v doc path st =
        (⟨st.num_checks + 3, st.num_fields,
          st.errors ++ int_fail_msgs mn mx (.vInt n) path⟩, none)) := by
  constructor
  · intro mn mx k v doc path st
    simp [Schema.validate, int_validate, int_checks_aggregate]
  · intro mn mx k v n doc path st hc
    simp [Schema.validate, int_validate, hc, int_checks_aggregate]

/-- Witness for C4 at the coercible string `"7"` against bounds `0..3`:
the coerced value 7 is type-correct but bound-checked, producing the
single maximum failure with three checks counted. -/
theorem C4_int_validate_three_checks_witness :
    pyIntCast (.vStr ("7")) = .okInt 7
    ∧ Schema.validate (.intS 0 3 true false) .aggregate (.vStr ("7"))
        ⟨.vInt 0, .strS none false, []⟩ ("x") VState.init =
        (⟨VState.init.num_checks + 3, VState.init.num_fields,
          VState.init.errors ++ int_fail_msgs 0 3 (.vInt 7) ("x")⟩, none) :=
  ⟨rfl,
    C4_int_validate_three_checks.2 0 3 false (.vStr ("7")) 7 ⟨.vInt 0, .strS none false, []⟩
      ("x") VState.init rfl⟩

/-- Appending an empty string on the right is the identity. -/
theorem string_append_empty (s : String) : s ++ "" = s := by
  cases s with
  | mk l => exact congrArg String.mk (List.append_nil l)

/-- Key membership across an appended index entry. -/
theorem indexHasKey_append (index : Index) (x : Value) (n : Nat) (y : Value) :
    indexHasKey (index ++ [(x, n)]) y = (indexHasKey index y || valueBeq x y) := by
  induction index with
  | nil => simp [indexHasKey]
  | cons p rest ih =>
    cases p with
    | mk k v => simp [indexHasKey, ih, Bool.or_assoc]

/-- `==` on string values is string equality. -/
theorem valueBeq_vStr (a b : String) : valueBeq (.vStr a) (.vStr b) = (a == b) := rfl

/-- `key or i` on a string key: a non-empty string key is used itself, an
empty (falsy) one falls back to the position. -/
theorem pyKeyOrIndex_vStr (k : String) (i : Nat) :
    pyKeyOrIndex (.vStr k) i =
      .ok (if 0 < k.length then .strKey k else .intKey (i : Int)) := by
  by_cases h : 0 < k.length <;> simp [pyKeyOrIndex, pyTruthy, h]

/-- The item loop over a key-marked string leaf errors out with a
duplicate-key message whenever the incoming keys repeat one another or a
key already recorded in the accumulated index. -/
theorem seq_build_str_key_dup (r : Option String)
    (bi : Value → String → Indices → Except String Indices)
    (hbi : ∀ v p ix, bi v p ix = .ok ix) (ks : List String) (path : String) :
    ∀ (i : Nat) (index : Index) (idxs : Indices),
    ((∃ k ∈ ks, indexHasKey index (.vStr k) = true) ∨ ¬ ks.Nodup) →
    ∃ k ∈ ks, seq_build_index (.strS r true) bi (ks.map Value.vStr) path i index idxs =
      .error ("Duplicate key (" ++ k ++ ") at path '" ++ path ++ "'") := by
  induction ks with
  | nil =>
    intro i index idxs h
    rcases h with ⟨k, hk, _⟩ | hnd
    · simp at hk
    · simp at hnd
  | cons k rest ih =>
    intro i index idxs h
    by_cases hk : indexHasKey index (.vStr k) = true
    · refine ⟨k, by simp, ?_⟩
      simp [seq_build_index, Schema.get_key, hk, pyStr]
    · have h' : (∃ k' ∈ rest, indexHasKey (index ++ [(.vStr k, i)]) (.vStr k') = true)
          ∨ ¬ rest.Nodup := by
        rcases h with ⟨k', hk', hin⟩ | hnd
        · rcases List.mem_cons.mp hk' with he | hm
          · subst he
            exact absurd hin hk
          · exact Or.inl ⟨k', hm, by rw [indexHasKey_append, hin]; rfl⟩
        · rw [List.nodup_cons] at hnd
          push_neg at hnd
          by_cases hmem : k ∈ rest
          · refine Or.inl ⟨k, hmem, ?_⟩
            rw [indexHasKey_append, valueBeq_vStr]
            simp
          · exact Or.inr (hnd hmem)
      obtain ⟨k', hk', heq⟩ := ih (i + 1) (index ++ [(.vStr k, i)]) idxs h'
      refine ⟨k', by simp [hk'], ?_⟩
      simp [seq_build_index, Schema.get_key, hk, pyKeyOrIndex_vStr, hbi, heq]

/-- C5: two items of one sequence that produce the same key value at the
same path make index building fail with a fatal duplicate-key error — an
abort of `Doc` construction (an uncaught `assert`, not a reporter-routed
validation failure), so it happens before any validation pass can run.
Shown both for any repeating list of string keys under a key-marked
string leaf, and for the concrete mapping-item shape with a repeated
`name` key field. -/
theorem C5_duplicate_key_fatal :
    (∀ (ks : List String), ¬ ks.Nodup →
      ∃ k ∈ ks, Doc.init (Value.list (ks.map Value.vStr)) (.listS (.strS none true)) =
        .error ("Duplicate key (" ++ k ++ ") at path ''"))
    ∧ Doc.init
        (Value.list [Value.map [(("name"), .vStr ("a"))], Value.map [(("name"), .vStr ("a"))]])
        (.listS (.dictS (SFields.ofList [(("name"), .strS none true)]))) =
      .error ("Duplicate key (a) at path ''") := by
  constructor
  · intro ks hnd
    obtain ⟨k, hk, heq⟩ :=
      seq_build_str_key_dup none (Schema.build_index (.strS none true)) (fun v p ix => rfl)
        ks ("") 0 [] [] (Or.inr hnd)
    have hmsg : ("Duplicate key (" ++ k ++ ") at path '" ++ "" ++ "'" : String) =
        "Duplicate key (" ++ k ++ ") at path ''" := by
      rw [string_append_empty, string_append_assoc]
      rw [show ((") at path '" ++ "'" : String)) = ") at path ''" from rfl]
    have hiter : pyIter (Value.list (List.map Value.vStr ks)) =
        .ok (List.map Value.vStr ks) := by
      simp [Value.list, pyIter, VItems.toList_ofList]
    refine ⟨k, hk, ?_⟩
    unfold Doc.init
    rw [Schema.build_index]
    simp only [hiter, heq, hmsg]
  · rfl

/-- Witness for C5 at the repeating key list `["a", "a"]`. -/
theorem C5_duplicate_key_fatal_witness :
    ¬ (["a", "a"] : List String).Nodup
    ∧ ∃ k ∈ (["a", "a"] : List String),
        Doc.init (Value.list ((["a", "a"] : List String).map Value.vStr))
          (.listS (.strS none true)) =
          .error ("Duplicate key (" ++ k ++ ") at path ''") :=
  ⟨by decide, C5_duplicate_key_fatal.1 (["a", "a"]) (by decide)⟩

/-- A failed lookup means the path is not among the registered paths. -/
theorem lookupStr_none_not_mem {α : Type} (l : List (String × α)) (p : String)
    (h : lookupStr l p = none) : p ∉ l.map Prod.fst := by
  induction l with
  | nil => simp
  | cons q rest ih =>
    cases q with
    | mk k v =>
      by_cases hk : k = p
      · subst hk
        simp [lookupStr] at h
      · simp [lookupStr, hk] at h
        simpa [hk, Ne.symm hk] using ih h

/-- `register_index` preserves distinctness of registered paths: it only
succeeds on a path that was absent and appends it. -/
theorem register_index_nodup (idxs : Indices) (index : Index) (path : String) (idxs' : Indices)
    (h : (idxs.map Prod.fst).Nodup) (he : register_index idxs index path = .ok idxs') :
    (idxs'.map Prod.fst).Nodup := by
  unfold register_index at he
  cases hl : lookupStr idxs path with
  | some x => rw [hl] at he; simp at he
  | none =>
    rw [hl] at he
    simp at he
    subst he
    simp only [List.map_append, List.map_cons, List.map_nil]
    rw [List.nodup_append]
    exact ⟨h, List.nodup_singleton path,
      by simpa [List.disjoint_singleton] using lookupStr_none_not_mem idxs path hl⟩

mutual
/-- The index-building pass preserves distinctness of registered paths. -/
theorem build_index_nodup (s : Schema) (data : Value) (path : String) (idxs idxs' : Indices)
    (h : (idxs.map Prod.fst).Nodup) (he : Schema.build_index s data path idxs = .ok idxs') :
    (idxs'.map Prod.fst).Nodup :=
  match s, he with
  | .intS _ _ _ _, he => by
    simp [Schema.build_index] at he
    exact he ▸ h
  | .strS _ _, he => by
    simp [Schema.build_index] at he
    exact he ▸ h
  | .dictS fields, he => fields_build_index_nodup fields data path idxs idxs' h he
  | .listS isch, he => by
    rw [Schema.build_index] at he
    cases hit : pyIter data with
    | error e => rw [hit] at he; simp at he
    | ok items =>
      rw [hit] at he
      simp only [] at he
      rcases hsq : seq_build_index isch (Schema.build_index isch) items path 0 [] idxs with
        e | ⟨index, idxs1⟩
      · rw [hsq] at he; simp at he
      · rw [hsq] at he
        have h1 : (idxs1.map Prod.fst).Nodup :=
          seq_build_index_nodup isch items path 0 [] index idxs idxs1 h hsq
        by_cases hlen : 0 < index.length
        · simp [hlen] at he
          exact register_index_nodup idxs1 index path idxs' h1 he
        · simp [hlen] at he
          exact he ▸ h1
termination_by (sizeOf s, 0)
/-- Field-loop counterpart of `build_index_nodup`. -/
theorem fields_build_index_nodup (fs : SFields) (data : Value) (path : String)
    (idxs idxs' : Indices) (h : (idxs.map Prod.fst).Nodup)
    (he : SFields.build_index_all fs data path idxs = .ok idxs') :
    (idxs'.map Prod.fst).Nodup :=
  match fs, he with
  | .fnil, he => by
    simp [SFields.build_index_all] at he
    exact he ▸ h
  | .fcons k s rest, he => by
    rw [SFields.build_index_all] at he
    cases hc : pyContainsStr k data with
    | error e => simp [hc] at he
    | ok b =>
      cases b with
      | false =>
        simp only [hc] at he
        exact fields_build_index_nodup rest data path idxs idxs' h he
      | true =>
        cases hg : pyGetItem data k with
        | error e => simp [hc, hg] at he
        | ok v =>
          cases hb : Schema.build_index s v (extend_path (.strKey k) path) idxs with
          | error e => simp [hc, hg, hb] at he
          | ok idxs1 =>
            simp only [hc, hg, hb] at he
            have h1 := build_index_nodup s v (extend_path (.strKey k) path) idxs idxs1 h hb
            exact fields_build_index_nodup rest data path idxs1 idxs' h1 he
termination_by (sizeOf fs, 0)
/-- Item-loop counterpart of `build_index_nodup`. -/
theorem seq_build_index_nodup (isch : Schema) (items : List Value) (path : String) (i : Nat)
    (index index' : Index) (idxs idxs' : Indices) (h : (idxs.map Prod.fst).Nodup)
    (he : seq_build_index isch (Schema.build_index isch) items path i index idxs =
      .ok (index', idxs')) : (idxs'.map Prod.fst).Nodup :=
  match items, he with
  | [], he => by
    simp [seq_build_index] at he
    exact he.2 ▸ h
  | item :: rest, he => by
    rw [seq_build_index] at he
    cases hg : Schema.get_key isch item with
    | error e => simp [hg] at he
    | ok keyOpt =>
      cases keyOpt with
      | none =>
        simp only [hg] at he
        exact seq_build_index_nodup isch rest path (i + 1) index index' idxs idxs' h he
      | some key =>
        cases hdup : indexHasKey index key with
        | true => simp [hg, hdup] at he
        | false =>
          cases hpk : pyKeyOrIndex key i with
          | error e => simp [hg, hdup, hpk] at he
          | ok pk =>
            cases hb : Schema.build_index isch item (extend_path pk path) idxs with
            | error e => simp [hg, hdup, hpk, hb] at he
            | ok idxs1 =>
              simp only [hg, hdup, hpk, hb, Bool.false_eq_true, if_false] at he
              have h1 := build_index_nodup isch item (extend_path pk path) idxs idxs1 h hb
              exact seq_build_index_nodup isch rest path (i + 1) (index ++ [(key, i)]) index'
                idxs1 idxs' h1 he
termination_by (sizeOf isch, items.length + 1)
end

/-- C8: `register_index` is fatal when the path is already registered
(the `assert` aborts), and consequently a successfully constructed `Doc`
has a registry whose paths are pairwise distinct — each registered path
maps to the single index built for it. -/
theorem C8_register_index_unique :
    (∀ (idxs : Indices) (index0 index1 : Index) (path : String),
      lookupStr idxs path = some index0 →
      register_index idxs index1 path =
        .error ("AssertionError: index already registered at path '" ++ path ++ "'"))
    ∧ (∀ (data : Value) (schema : Schema) (doc : Doc),
      Doc.init data schema = .ok doc → (doc.indices.map Prod.fst).Nodup) := by
  constructor
  · intro idxs index0 index1 path h
    simp [register_index, h]
  · intro data schema doc he
    unfold Doc.init at he
    cases hb : Schema.build_index schema data ("") [] with
    | error e => rw [hb] at he; simp at he
    | ok idxs =>
      rw [hb] at he
      simp at he
      have h0 : (([] : Indices).map Prod.fst).Nodup := by simp
      have := build_index_nodup schema data ("") [] idxs h0 hb
      rw [← he]
      exact this

/-- Witness for C8: a duplicate registration at path `"p"` errors, and a
concretely constructed document has pairwise distinct registry paths. -/
theorem C8_register_index_unique_witness :
    lookupStr [(("p"), ([] : Index))] ("p") = some []
    ∧ register_index [(("p"), ([] : Index))] [] ("p") =
        .error ("AssertionError: index already registered at path '" ++ "p" ++ "'")
    ∧ Doc.init (Value.list [.vStr ("a")]) (.listS (.strS none true)) =
        .ok ⟨Value.list [.vStr ("a")], .listS (.strS none true), [(("") , [(.vStr ("a"), 0)])]⟩
    ∧ (((⟨Value.list [.vStr ("a")], .listS (.strS none true),
          [(("") , [(.vStr ("a"), 0)])]⟩ : Doc)).indices.map Prod.fst).Nodup :=
  ⟨rfl,
    C8_register_index_unique.1 [(("p"), [])] [] [] ("p") rfl,
    rfl,
    C8_register_index_unique.2 (Value.list [.vStr ("a")]) (.listS (.strS none true))
      ⟨Value.list [.vStr ("a")], .listS (.strS none true), [(("") , [(.vStr ("a"), 0)])]⟩ rfl⟩

/-- A document with three independent ordinary failures: three int
fields, each bound-violating (`a = -5`, `b = 20`, `c = -7` against
bounds `0..10`). -/
def threeFailData : Value :=
  Value.map [(("a"), .vInt (-5)), (("b"), .vInt 20), (("c"), .vInt (-7))]

/-- The schema of `threeFailData`: three int fields with bounds `0..10`. -/
def threeFailSchema : Schema :=
  .dictS (SFields.ofList [(("a"), .intS 0 10 false false), (("b"), .intS 0 10 false false),
    (("c"), .intS 0 10 false false)])

/-- C6: on a document with 3 independent failures the FailFast reporter
surfaces exactly the first failure in traversal order (aborting the
walk after 2 checks on 2 visited fields, with nothing collected), while
the Aggregate reporter walks the entire document (9 checks on 4
fields), collects all 3 failure messages, and reports the trailing
summary counting 3. -/
theorem C6_failfast_vs_aggregate :
    Doc.init threeFailData threeFailSchema = .ok ⟨threeFailData, threeFailSchema, []⟩
    ∧ failfast_validate ⟨threeFailData, threeFailSchema, []⟩ =
      (⟨2, 2, []⟩,
       some (.reported ("Error at path 'a': Int value (-5) less than minimum (0)")))
    ∧ aggregate_validate ⟨threeFailData, threeFailSchema, []⟩ =
      (⟨9, 4, ["Error at path 'a': Int value (-5) less than minimum (0)",
               "Error at path 'b': Int value (20) greater than maximum (10)",
               "Error at path 'c': Int value (-7) less than minimum (0)"]⟩,
       some (.reported ("Validation failed with 3 errors!"))) :=
  ⟨rfl, rfl, rfl⟩

/-- Pointwise sum of (checks, fields) counter pairs. -/
def padd (a b : Nat × Nat) : Nat × Nat := (a.1 + b.1, a.2 + b.2)

/-- Counters contributed by the item loop of a sequence validation: one
checker per item plus the item's own counts. -/
def count_seq_sf (f : Value → Nat × Nat) : List Value → Nat × Nat
  | [] => (0, 0)
  | v :: rest => padd (padd (f v) (0, 1)) (count_seq_sf f rest)

mutual
/-- The number of `assertTrue` calls and of child `Checker`
constructions a crash-free aggregate validation of this schema node
performs on this value, read off the structure of `Schema.validate`:
int leaves count three checks (none after a failed coercion), string
leaves count the type check plus the reference check when a `ref` is
configured, and composites sum their visited children, one checker
construction per child visit. -/
def count_sf : Schema → Value → Doc → Nat × Nat
  | .intS _ _ c _, data, _ =>
    if c then
      match pyIntCast data with
      | .okInt _ => (3, 0)
      | .castValueError => (0, 0)
      | .castTypeError _ => (0, 0)
    else (3, 0)
  | .strS ref _, _, _ =>
    (match ref with
     | some r => if 0 < r.length then 2 else 1
     | none => 1, 0)
  | .dictS fields, data, doc => count_fields_sf fields data doc
  | .listS isch, data, doc =>
    match pyIter data with
    | .error _ => (0, 0)
    | .ok items => count_seq_sf (fun v => count_sf isch v doc) items
/-- Field-loop counterpart of `count_sf`. -/
def count_fields_sf : SFields → Value → Doc → Nat × Nat
  | .fnil, _, _ => (0, 0)
  | .fcons k s rest, data, doc =>
    match pyContainsStr k data with
    | .error _ => (0, 0)
    | .ok false => count_fields_sf rest data doc
    | .ok true =>
      match pyGetItem data k with
      | .error _ => (0, 0)
      | .ok v => padd (padd (count_sf s v doc) (0, 1)) (count_fields_sf rest data doc)
end

/-- Closed form of `assertTrue` under the aggregate strategy: the check
counter advances by one, no failure is raised, and the path-prefixed
message is appended exactly when the condition is false. -/
theorem assertTrue_aggregate (path : String) (v : Bool) (msg : String) (st : VState) :
    assertTrue .aggregate path v msg st =
      (⟨st.num_checks + 1, st.num_fields,
        if v then st.errors
        else st.errors ++ ["Error at path '" ++ path ++ "': " ++ msg]⟩, none) := by
  cases v <;> simp [assertTrue, report_check, checker_fail, raise_error]

mutual
/-- In a crash-free aggregate run, the counter deltas of a schema-node
validation equal the structural counts of `count_sf`: `num_checks`
advances once per `assertTrue` call and `num_fields` once per `Checker`
construction. -/
theorem validate_counts (s : Schema) (data : Value) (doc : Doc) (path : String) (st st' : VState)
    (he : Schema.validate s .aggregate data doc path st = (st', none)) :
    st'.num_checks = st.num_checks + (count_sf s data doc).1
    ∧ st'.num_fields = st.num_fields + (count_sf s data doc).2 :=
  match s, he with
  | .intS mn mx c k, he => by
    rw [Schema.validate, int_validate] at he
    cases c with
    | false =>
      simp only [if_false, Bool.false_eq_true, int_checks_aggregate, Prod.mk.injEq] at he
      rw [← he.1]
      simp [count_sf]
    | true =>
      cases hic : pyIntCast data with
      | okInt n =>
        simp only [hic, if_true, int_checks_aggregate, Prod.mk.injEq] at he
        rw [← he.1]
        simp [count_sf, hic]
      | castValueError =>
        simp only [hic, if_true, checker_fail, raise_error, Prod.mk.injEq] at he
        rw [← he.1]
        simp [count_sf, hic]
      | castTypeError t =>
        simp [hic] at he
  | .strS ref k, he => by
    rw [Schema.validate, str_validate] at he
    rw [assertTrue_aggregate] at he
    simp only [vseq] at he
    cases ref with
    | none =>
      simp only [Prod.mk.injEq] at he
      rw [← he.1]
      simp [count_sf]
    | some r =>
      by_cases hr : 0 < r.length
      · simp only [hr, if_true] at he
        rw [Doc.check_ref] at he
        cases hl : lookupStr doc.indices r with
        | none => simp [hl] at he
        | some index =>
          simp only [hl] at he
          rw [assertTrue_aggregate] at he
          simp only [Prod.mk.injEq] at he
          rw [← he.1]
          simp [count_sf, hr]
      · simp only [hr, if_false] at he
        simp only [Prod.mk.injEq] at he
        rw [← he.1]
        simp [count_sf, hr]
  | .dictS fields, he => fields_validate_counts fields data doc path st st' he
  | .listS isch, he => by
    rw [Schema.validate] at he
    cases hit : pyIter data with
    | error e => simp [hit] at he
    | ok items =>
      simp only [hit] at he
      have := seq_validate_counts isch items doc path 0 st st' he
      simpa [count_sf, hit] using this
termination_by (sizeOf s, 0)
/-- Field-loop counterpart of `validate_counts`. -/
theorem fields_validate_counts (fs : SFields) (data : Value) (doc : Doc) (path : String)
    (st st' : VState)
    (he : SFields.validate_all fs .aggregate data doc path st = (st', none)) :
    st'.num_checks = st.num_checks + (count_fields_sf fs data doc).1
    ∧ st'.num_fields = st.num_fields + (count_fields_sf fs data doc).2 :=
  match fs, he with
  | .fnil, he => by
    simp only [SFields.validate_all, Prod.mk.injEq] at he
    rw [← he.1]
    simp [count_fields_sf]
  | .fcons k s rest, he => by
    rw [SFields.validate_all] at he
    cases hc : pyContainsStr k data with
    | error e => simp [hc] at he
    | ok b =>
      cases b with
      | false =>
        simp only [hc] at he
        have := fields_validate_counts rest data doc path st st' he
        simpa [count_fields_sf, hc] using this
      | true =>
        cases hg : pyGetItem data k with
        | error e => simp [hc, hg] at he
        | ok v =>
          simp only [hc, hg, checker_validate] at he
          rcases hx : Schema.validate s .aggregate v doc (extend_path (.strKey k) path)
              (report_field st) with ⟨stm, fo⟩
          cases fo with
          | some e => rw [hx] at he; simp [vseq] at he
          | none =>
            rw [hx] at he
            simp only [vseq] at he
            have ih1 := validate_counts s v doc (extend_path (.strKey k) path)
              (report_field st) stm hx
            have ih2 := fields_validate_counts rest data doc path stm st' he
            simp [count_fields_sf, hc, hg, padd, report_field] at ih1 ih2 ⊢
            omega
termination_by (sizeOf fs, 0)
/-- Item-loop counterpart of `validate_counts`. -/
theorem seq_validate_counts (isch : Schema) (items : List Value) (doc : Doc) (path : String)
    (i : Nat) (st st' : VState)
    (he : seq_validate (Schema.validate isch) .aggregate items doc path i st = (st', none)) :
    st'.num_checks = st.num_checks + (count_seq_sf (fun v => count_sf isch v doc) items).1
    ∧ st'.num_fields = st.num_fields + (count_seq_sf (fun v => count_sf isch v doc) items).2 :=
  match items, he with
  | [], he => by
    simp only [seq_validate, Prod.mk.injEq] at he
    rw [← he.1]
    simp [count_seq_sf]
  | item :: rest, he => by
    rw [seq_validate] at he
    simp only [checker_validate] at he
    rcases hx : Schema.validate isch .aggregate item doc (extend_path (.intKey (i : Int)) path)
        (report_field st) with ⟨stm, fo⟩
    cases fo with
    | some e => rw [hx] at he; simp [vseq] at he
    | none =>
      rw [hx] at he
      simp only [vseq] at he
      have ih1 := validate_counts isch item doc (extend_path (.intKey (i : Int)) path)
        (report_field st) stm hx
      have ih2 := seq_validate_counts isch rest doc path (i + 1) stm st' he
      simp [count_seq_sf, padd, report_field] at ih1 ih2 ⊢
      omega
termination_by (sizeOf isch, items.length + 1)
end

/-- C10: every `Checker` construction advances the reporter's field
counter by one; every `assertTrue` call first advances the check
counter and then raises through the reporter, exactly when the
condition is false, the message prefixed as
`"Error at path '<path>': <message>"`; consequently, over a crash-free
aggregate run, the counter deltas equal the number of `assertTrue`
calls and of `Checker` constructions the walk performs (the structural
counts `count_sf`). -/
theorem C10_checker_counters :
    (∀ (st : VState), report_field st = ⟨st.num_checks, st.num_fields + 1, st.errors⟩)
    ∧ (∀ (mode : Mode) (path : String) (v : Bool) (msg : String) (st : VState),
        (assertTrue mode path v msg st).1.num_checks = st.num_checks + 1)
    ∧ (∀ (mode : Mode) (path msg : String) (st : VState),
        assertTrue mode path true msg st = (report_check st, none))
    ∧ (∀ (path msg : String) (st : VState),
        assertTrue .failFast path false msg st =
          (report_check st, some (.reported ("Error at path '" ++ path ++ "': " ++ msg))))
    ∧ (∀ (path msg : String) (st : VState),
        assertTrue .aggregate path false msg st =
          (⟨st.num_checks + 1, st.num_fields,
            st.errors ++ ["Error at path '" ++ path ++ "': " ++ msg]⟩, none))
    ∧ (∀ (s : Schema) (data : Value) (doc : Doc) (path : String) (st st' : VState),
        Schema.validate s .aggregate data doc path st = (st', none) →
        st'.num_checks = st.num_checks + (count_sf s data doc).1
        ∧ st'.num_fields = st.num_fields + (count_sf s data doc).2) := by
  refine ⟨fun st => rfl, fun mode path v msg st => ?_, fun mode path msg st => ?_,
    fun path msg st => rfl, fun path msg st => by rw [assertTrue_aggregate]; simp,
    fun s data doc path st st' he => validate_counts s data doc path st st' he⟩
  · cases mode <;> cases v <;>
      simp [assertTrue, report_check, checker_fail, raise_error]
  · cases mode <;> simp [assertTrue, report_check]

/-- Witness for C10 on a concrete crash-free aggregate run: validating
the integer 5 against bounds `0..10` performs the three counted checks
on zero extra checkers. -/
theorem C10_checker_counters_witness :
    Schema.validate (.intS 0 10 false false) .aggregate (.vInt 5)
        ⟨.vInt 0, .strS none false, []⟩ ("x") VState.init = (⟨3, 0, []⟩, none)
    ∧ (3 : Nat) = VState.init.num_checks +
        (count_sf (.intS 0 10 false false) (.vInt 5) ⟨.vInt 0, .strS none false, []⟩).1
    ∧ (0 : Nat) = VState.init.num_fields +
        (count_sf (.intS 0 10 false false) (.vInt 5) ⟨.vInt 0, .strS none false, []⟩).2 :=
  ⟨rfl,
    (C10_checker_counters.2.2.2.2.2 (.intS 0 10 false false) (.vInt 5)
      ⟨.vInt 0, .strS none false, []⟩ ("x") VState.init ⟨3, 0, []⟩ rfl).1,
    (C10_checker_counters.2.2.2.2.2 (.intS 0 10 false false) (.vInt 5)
      ⟨.vInt 0, .strS none false, []⟩ ("x") VState.init ⟨3, 0, []⟩ rfl).2⟩

end Vladify
